import Mathlib

/-
  Verification of the B2B-Customer-draft-order-create backend.

  Shallow embedding of the credential-acquisition and request-authorization
  layer of the server variants in src/index.js and src/unnamed/part_000,
  together with the startup validation of src/load-env.js.

  Conventions of the embedding:
  - JS strings are Lean Strings; character-level operations work on .data.
  - JS number timestamps (Date.now(), expiry instants) are Int milliseconds.
  - The upstream fetch performed by a single call is passed in as an explicit
    outcome value (thrown / non-ok / ok payload); module-level mutable cells
    (cachedToken, tokenExpiresAt, ccToken, ccExpiresAt) are explicit state
    records threaded through each call.
  - jwtVerify is passed in as the outcome of the signature verification for
    the presented token; a token signed with the wrong secret has a failing
    outcome (HMAC verification rejects it).
  - String.toLowerCase is modelled by Char.toLower (exact ASCII semantics of
    the JS engine for the basic latin range), String.prototype.trim by
    removal of whitespace characters from both ends.
-/

namespace B2B

/-! ### Shop identity resolver (src/unnamed/part_000 lines 10-15 and 586-591) -/

/-- Whitespace characters removed by String.prototype.trim (ASCII range plus
NBSP and BOM; the model covers the characters that can occur in the inputs
considered). -/
def isJsWs (c : Char) : Bool :=
  decide (c.toNat = 9 ∨ c.toNat = 10 ∨ c.toNat = 11 ∨ c.toNat = 12 ∨
          c.toNat = 13 ∨ c.toNat = 32 ∨ c.toNat = 160 ∨ c.toNat = 65279)

/-- JS String.prototype.trim on the character list: drop whitespace from the
front, then from the back. -/
def charTrim (l : List Char) : List Char :=
  List.rdropWhile isJsWs (l.dropWhile isJsWs)

/-- Decidable prefix test on character lists (String.prototype.startsWith). -/
def isPrefixOfL : List Char → List Char → Bool
  | [], _ => true
  | _ :: _, [] => false
  | a :: as, b :: bs => a == b && isPrefixOfL as bs

/-- Decidable substring test (String.prototype.includes): some position of
the haystack starts with the needle. -/
def containsSeg (needle : List Char) : List Char → Bool
  | [] => isPrefixOfL needle []
  | c :: t => isPrefixOfL needle (c :: t) || containsSeg needle t

/-- The canonical shop-domain suffix checked and appended by normalizeShop. -/
def shopSuffix : List Char := ".myshopify.com".data

/-- normalizeShop of the JWT variant (part_000 lines 10-15, also 203-208):
empty input maps to the empty string; otherwise trim, lowercase, and if the
canonical suffix occurs keep the segment before the first slash
(s.split("/")[0]), else append the suffix. -/
def normalizeShopL (x : List Char) : List Char :=
  if x = [] then []
  else if containsSeg shopSuffix ((charTrim x).map Char.toLower) then
    ((charTrim x).map Char.toLower).takeWhile (fun c => c != '/')
  else ((charTrim x).map Char.toLower) ++ shopSuffix

def normalizeShop (x : String) : String := String.mk (normalizeShopL x.data)

/-- The replace of a single trailing slash, regex slash-dollar with one
match, used by the static-token variant (part_000 line 588). -/
def stripTrailingSlash (l : List Char) : List Char :=
  if l.getLast? = some '/' then l.dropLast else l

/-- normalizeShop of the static-token variant (part_000 lines 586-591):
trim, lowercase, strip one trailing slash; if the canonical suffix occurs
the string is kept whole (no split on slash), else the suffix is appended. -/
def normalizeShopStaticL (x : List Char) : List Char :=
  if x = [] then []
  else if containsSeg shopSuffix (stripTrailingSlash ((charTrim x).map Char.toLower)) then
    stripTrailingSlash ((charTrim x).map Char.toLower)
  else stripTrailingSlash ((charTrim x).map Char.toLower) ++ shopSuffix

def normalizeShopStatic (x : String) : String := String.mk (normalizeShopStaticL x.data)

/-! ### Client-credentials provider, JWT variant (part_000 lines 37-63) -/

/-- JS truthiness of a possibly-absent string: undefined and the empty
string are falsy. -/
def jsTruthy : Option String → Bool
  | none => false
  | some s => s != ""

/-- Module state of the client-credentials cache: `let cachedToken = null;
let tokenExpiresAt = 0;`. -/
structure CCState where
  cachedToken : Option String
  tokenExpiresAt : Int
  deriving Repr, DecidableEq

/-- Outcome of the POST to the token endpoint as observed by getToken: the
fetch threw, returned a non-ok status, or returned a JSON body with
access_token and expires_in. -/
inductive FetchResult where
  | thrown (msg : String)
  | notOk (status : Nat) (text : String)
  | ok (access_token : String) (expires_in : Int)
  deriving Repr, DecidableEq

/-- Result of one call to a token getter: the value returned or error
thrown, the cache state afterwards, and whether an upstream token-endpoint
request was attempted. -/
structure GetTokenOut (σ : Type) where
  result : Except String String
  state : σ
  fetched : Bool
  deriving Repr

/-- The cache-freshness guard of getToken:
`cachedToken && Date.now() < tokenExpiresAt - 60_000`. -/
def ccCacheFresh (st : CCState) (now : Int) : Prop :=
  jsTruthy st.cachedToken = true ∧ now < st.tokenExpiresAt - 60000

instance (st : CCState) (now : Int) : Decidable (ccCacheFresh st now) := by
  unfold ccCacheFresh; infer_instance

/-- getToken (part_000 lines 40-63): return the cached token while it is
still fresh within the 60 second margin, otherwise attempt one acquisition;
a thrown fetch or non-ok response propagates as an error and leaves the
cache untouched; a successful response overwrites the cache and records
expiry now + expires_in seconds. -/
def getToken (st : CCState) (now : Int) (fetch : FetchResult) : GetTokenOut CCState :=
  if ccCacheFresh st now then
    { result := .ok (st.cachedToken.getD ""), state := st, fetched := false }
  else
    match fetch with
    | .thrown msg => { result := .error msg, state := st, fetched := true }
    | .notOk status text =>
        { result := .error ("Token request failed (" ++ toString status ++ "): " ++ text),
          state := st, fetched := true }
    | .ok access_token expires_in =>
        { result := .ok access_token,
          state := { cachedToken := some access_token,
                     tokenExpiresAt := now + expires_in * 1000 },
          fetched := true }

/-! ### Access-token provider, static-token variant (part_000 lines 617-662) -/

/-- Module state `let ccToken = null; let ccExpiresAt = 0;`. -/
structure CCState2 where
  ccToken : Option String
  ccExpiresAt : Int
  deriving Repr, DecidableEq

/-- Token-endpoint outcome for getAccessToken; expires_in may be absent from
the JSON body (the code falls back to 86400). -/
inductive FetchResultCC where
  | thrown (msg : String)
  | notOk (status : Nat) (text : String)
  | ok (access_token : String) (expires_in : Option Int)
  deriving Repr, DecidableEq

def ccCacheFresh2 (st : CCState2) (now : Int) : Prop :=
  jsTruthy st.ccToken = true ∧ now < st.ccExpiresAt - 60000

instance (st : CCState2) (now : Int) : Decidable (ccCacheFresh2 st now) := by
  unfold ccCacheFresh2; infer_instance

/-- getAccessToken (part_000 lines 623-662): a non-empty static token is
returned immediately with no upstream request and no cache change;
otherwise the client-credentials cache is used exactly as in getToken, with
expires_in defaulting to 86400 seconds. -/
def getAccessToken (staticAccessToken : String) (st : CCState2) (now : Int)
    (fetch : FetchResultCC) : GetTokenOut CCState2 :=
  if staticAccessToken ≠ "" then
    { result := .ok staticAccessToken, state := st, fetched := false }
  else if ccCacheFresh2 st now then
    { result := .ok (st.ccToken.getD ""), state := st, fetched := false }
  else
    match fetch with
    | .thrown msg => { result := .error msg, state := st, fetched := true }
    | .notOk status text =>
        { result := .error ("client_credentials failed (" ++ toString status ++
            "). This grant only works for Dev Dashboard (organization) apps. " ++
            "For Partner Dashboard apps, set SHOPIFY_ACCESS_TOKEN instead. Response: " ++
            (if text.length > 300 then String.mk (text.data.take 300) else text)),
          state := st, fetched := true }
    | .ok access_token expires_in =>
        { result := .ok access_token,
          state := { ccToken := some access_token,
                     ccExpiresAt := now + (expires_in.getD 86400) * 1000 },
          fetched := true }

/-- True when the fetch attempt failed (threw or returned non-ok). -/
def fetchFailed : FetchResult → Bool
  | .ok _ _ => false
  | _ => true

def fetchFailedCC : FetchResultCC → Bool
  | .ok _ _ => false
  | _ => true

def isError : Except String String → Bool
  | .error _ => true
  | .ok _ => false

/-! ### Request authorizer, JWT variant (part_000 lines 66-103) -/

/-- Claims carried by the verified session token; dest is the primary
destination claim, des the legacy alias read by `payload.dest || payload.des`. -/
structure JwtPayload where
  dest : Option String
  des : Option String
  deriving Repr, DecidableEq

/-- Outcome of a middleware run: a JSON error response carrying a status
and a machine-readable code, or an authorized `{shop, accessToken}` context
handed to the route handler via next(). -/
inductive AuthOutcome where
  | respond (status : Nat) (code : String)
  | authorized (shop : String) (accessToken : String)
  deriving Repr, DecidableEq

/-- Keep a present, non-empty string (JS truthiness filter). -/
def truthyStr : Option String → Option String
  | some s => if s = "" then none else some s
  | none => none

/-- `a || b || ""` on possibly-absent strings. -/
def jsOrEmpty (a b : Option String) : String :=
  match truthyStr a with
  | some s => s
  | none =>
    match truthyStr b with
    | some s => s
    | none => ""

def jsStartsWith (s pre : String) : Bool := isPrefixOfL pre.data s.data

/-- The guard `!auth || !auth.startsWith("Bearer ")`: a missing header and a
header without the Bearer scheme are both rejected. -/
def authMissingCheck : Option String → Bool
  | none => true
  | some a => !(jsStartsWith a "Bearer ")

/-- The replace of a single leading http:// or https:// scheme
(regex caret-https-question, one match). -/
def stripHttpScheme (l : List Char) : List Char :=
  if isPrefixOfL "https://".data l then l.drop 8
  else if isPrefixOfL "http://".data l then l.drop 7
  else l

/-- `String(dest).replace(...).split("/")[0].toLowerCase()`: the shop host
claimed by the token destination. -/
def tokenShopOf (payload : JwtPayload) : String :=
  String.mk (((stripHttpScheme (jsOrEmpty payload.dest payload.des).data).takeWhile
    (fun c => c != '/')).map Char.toLower)

/-- sessionTokenAuth (part_000 lines 66-103), with the jwtVerify outcome for
the presented token and the getToken outcome passed in: missing/non-Bearer
header is rejected 401 missing_auth; a failing verification 401
invalid_token; a claimed shop that is empty or does not normalize to the
configured domain 401 shop_mismatch; a failing token acquisition 503
token_failed; otherwise the request is authorized. -/
def sessionTokenAuth (shopDomain : String) (authHeader : Option String)
    (verifyResult : Except String JwtPayload)
    (tokenResult : Except String String) : AuthOutcome :=
  if authMissingCheck authHeader then .respond 401 "missing_auth"
  else
    match verifyResult with
    | .error _ => .respond 401 "invalid_token"
    | .ok payload =>
      if tokenShopOf payload = "" ∨ normalizeShop (tokenShopOf payload) ≠ shopDomain then
        .respond 401 "shop_mismatch"
      else
        match tokenResult with
        | .error _ => .respond 503 "token_failed"
        | .ok accessToken => .authorized shopDomain accessToken

/-- requireShopToken (part_000 lines 260-269 and 665-674): no header
inspection at all; the request is authorized whenever a token is obtained
and rejected 503 token_failed otherwise. -/
def requireShopToken (shopDomain : String) (_authHeader : Option String)
    (tokenResult : Except String String) : AuthOutcome :=
  match tokenResult with
  | .ok accessToken => .authorized shopDomain accessToken
  | .error _ => .respond 503 "token_failed"

/-! ### Check-draft-order handler (src/index.js lines 224-246) -/

/-- parseDraftId (src/index.js lines 218-222): a falsy id gives null, an id
already in gid:// form is kept, a bare id is wrapped. The handler passes
the query value after percent-decoding; the inputs considered here decode
to themselves. -/
def parseDraftId : Option String → Option String
  | none => none
  | some s =>
    if s = "" then none
    else if jsStartsWith s "gid://" then some s
    else some ("gid://shopify/DraftOrder/" ++ s)

/-- Upstream outcome of the DraftOrder status query: the GraphQL call threw,
or it returned with `response.data?.draftOrder` either absent or carrying a
status string. -/
inductive CheckUpstream where
  | thrown (msg : String)
  | ok (draftOrder : Option String)
  deriving Repr, DecidableEq

inductive CheckBody where
  | isDraftVal (b : Bool)
  | errorBody (msg : String)
  deriving Repr, DecidableEq

structure CheckResp where
  status : Nat
  body : CheckBody
  deriving Repr, DecidableEq

/-- GET /api/draft-orders/check (src/index.js lines 224-246): a missing
orderId is answered 400; otherwise the upstream query runs and the handler
answers 200 with isDraft true exactly for the OPEN and INVOICE_SENT
statuses, with any thrown upstream error swallowed into 200 isDraft false. -/
def checkDraftOrderHandler (orderId : Option String) (upstream : CheckUpstream) : CheckResp :=
  match parseDraftId orderId with
  | none => { status := 400, body := .errorBody "orderId is required" }
  | some _ =>
    match upstream with
    | .thrown _ => { status := 200, body := .isDraftVal false }
    | .ok draftOrder =>
      { status := 200,
        body := .isDraftVal (match draftOrder with
          | none => false
          | some status => status == "OPEN" || status == "INVOICE_SENT") }

/-- True when the response body is of the isDraft shape. -/
def isDraftBody : CheckBody → Bool
  | .isDraftVal _ => true
  | .errorBody _ => false

/-! ### Startup configuration validation (src/load-env.js lines 13-31) -/

/-- The environment variables read by load-env.js. -/
structure EnvConfig where
  SHOPIFY_SHOP : Option String
  SHOP : Option String
  SHOPIFY_ACCESS_TOKEN : Option String
  SHOPIFY_CLIENT_ID : Option String
  SHOPIFY_API_KEY : Option String
  SHOPIFY_CLIENT_SECRET : Option String
  SHOPIFY_API_SECRET : Option String
  deriving Repr, DecidableEq

/-- `a || b` on possibly-absent strings. -/
def jsOrOpt (a b : Option String) : Option String :=
  match truthyStr a with
  | some s => some s
  | none => b

def envShop (e : EnvConfig) : Option String := jsOrOpt e.SHOPIFY_SHOP e.SHOP

/-- `!!(process.env.SHOPIFY_ACCESS_TOKEN || "").trim()`. -/
def hasStaticToken (e : EnvConfig) : Bool :=
  charTrim (e.SHOPIFY_ACCESS_TOKEN.getD "").data != []

/-- `!!(SHOPIFY_CLIENT_ID || SHOPIFY_API_KEY) && !!(SHOPIFY_CLIENT_SECRET ||
SHOPIFY_API_SECRET)`. -/
def hasClientCreds (e : EnvConfig) : Bool :=
  jsTruthy (jsOrOpt e.SHOPIFY_CLIENT_ID e.SHOPIFY_API_KEY) &&
  jsTruthy (jsOrOpt e.SHOPIFY_CLIENT_SECRET e.SHOPIFY_API_SECRET)

inductive StartupResult where
  | exited (code : Nat) (message : String)
  | started
  deriving Repr, DecidableEq

def missingShopMessage : String :=
  "Missing required env var: SHOPIFY_SHOP (e.g. your-store.myshopify.com or your-store)"

def missingAuthMessage : String :=
  "Auth config missing. Provide ONE of:\n" ++
  "  1. SHOPIFY_ACCESS_TOKEN  (from a custom app in Shopify Admin)\n" ++
  "  2. SHOPIFY_CLIENT_ID + SHOPIFY_CLIENT_SECRET  (Dev Dashboard org app only)"

/-- load-env.js startup validation: the shop check runs first and exits the
process with code 1 on failure; only when it passes does the auth-credential
check run, exiting with code 1 on failure. -/
def loadEnvStartup (e : EnvConfig) : StartupResult :=
  if jsTruthy (envShop e) = false then .exited 1 missingShopMessage
  else if hasStaticToken e = false ∧ hasClientCreds e = false then
    .exited 1 missingAuthMessage
  else .started

/-- Substring test on strings, for asking which variable names a startup
message mentions. -/
def strContains (hay needle : String) : Bool := containsSeg needle.data hay.data

/-! ### Startup logging of the static-token variant (part_000 lines 582-585 and 778-791) -/

/-- The three console.log calls at module load (part_000 lines 583-585),
printing the static token, client id and client secret in full. -/
def startupEnvLogs (staticAccessToken clientId clientSecret : String) : List String :=
  ["STATIC_ACCESS_TOKEN " ++ staticAccessToken,
   "CLIENT_ID " ++ clientId,
   "CLIENT_SECRET " ++ clientSecret]

/-- The console output of the app.listen callback (part_000 lines 778-791),
including the startup token test that prints the full token on success. -/
def listenLogs (port : Nat) (shopDomain staticAccessToken : String)
    (tokenResult : Except String String) : List String :=
  ["Server running on port " ++ toString port,
   "Shop: " ++ shopDomain,
   "Auth: " ++ (if staticAccessToken ≠ "" then "SHOPIFY_ACCESS_TOKEN (static)"
                else "client_credentials (auto-refresh)"),
   "\n--- Testing access token on startup ---"] ++
  (match tokenResult with
   | .ok token => ["Token OK: " ++ token]
   | .error msg => ["Token FAILED: " ++ msg])

/-- The masking used by the same file where it does redact (the
client_credentials response log at line 655 and /api/test-token at line 770):
first eight characters, ellipsis, last four. -/
def maskToken (t : String) : String :=
  String.mk (t.data.take 8 ++ "...".data ++ t.data.drop (t.data.length - 4))

/-! ### Helper lemmas on characters -/

theorem char_toNat_ofNat_valid {n : Nat} (h : n.isValidChar) : (Char.ofNat n).toNat = n := by
  rw [Char.ofNat, dif_pos h]
  rfl

theorem toNat_toLower (c : Char) :
    (Char.toLower c).toNat =
      if c.toNat ≥ 65 ∧ c.toNat ≤ 90 then c.toNat + 32 else c.toNat := by
  by_cases h : c.toNat ≥ 65 ∧ c.toNat ≤ 90
  · rw [if_pos h]
    unfold Char.toLower
    rw [if_pos h]
    exact char_toNat_ofNat_valid (Or.inl (by omega))
  · rw [if_neg h]
    unfold Char.toLower
    rw [if_neg h]

theorem toLower_eq_self {c : Char} (h : ¬(c.toNat ≥ 65 ∧ c.toNat ≤ 90)) :
    Char.toLower c = c := by
  unfold Char.toLower
  rw [if_neg h]

theorem toLower_idem (c : Char) : Char.toLower (Char.toLower c) = Char.toLower c := by
  by_cases h : c.toNat ≥ 65 ∧ c.toNat ≤ 90
  · have h1 : (Char.toLower c).toNat = c.toNat + 32 := by rw [toNat_toLower, if_pos h]
    apply toLower_eq_self
    rw [h1]
    omega
  · simp only [toLower_eq_self h]

theorem toLower_eq_slash {c : Char} (h : Char.toLower c = '/') : c = '/' := by
  have h1 := toNat_toLower c
  rw [h] at h1
  have h47 : ('/').toNat = 47 := by decide
  rw [h47] at h1
  split at h1
  · omega
  · have h2 : Char.ofNat c.toNat = Char.ofNat 47 := by rw [← h1]
    rw [Char.ofNat_toNat] at h2
    rw [h2]

theorem isJsWs_toLower {c : Char} (h : isJsWs c = false) :
    isJsWs (Char.toLower c) = false := by
  simp only [isJsWs, decide_eq_false_iff_not] at h ⊢
  rw [toNat_toLower c]
  split
  · next hc => omega
  · exact h

/-! ### Helper lemmas on lists of characters -/

theorem isPrefixOfL_refl (l : List Char) : isPrefixOfL l l = true := by
  induction l with
  | nil => rfl
  | cons a t ih => simp [isPrefixOfL, ih]

theorem containsSeg_self {n : List Char} : containsSeg n n = true := by
  cases n with
  | nil => rfl
  | cons a t => simp [containsSeg, isPrefixOfL_refl]

theorem containsSeg_append_self (s n : List Char) : containsSeg n (s ++ n) = true := by
  induction s with
  | nil => simpa using containsSeg_self
  | cons a s ih => simp [containsSeg, ih]

theorem containsSeg_ne_nil {n h : List Char} (hn : n ≠ []) (hc : containsSeg n h = true) :
    h ≠ [] := by
  intro he
  subst he
  cases n with
  | nil => exact hn rfl
  | cons a t => simp [containsSeg, isPrefixOfL] at hc

theorem takeWhile_ne_slash_eq_self {l : List Char} (h : '/' ∉ l) :
    l.takeWhile (fun c => c != '/') = l := by
  induction l with
  | nil => rfl
  | cons a t ih =>
    have ha : (a != '/') = true := by
      simp only [bne_iff_ne, ne_eq]
      intro hh
      exact h (by simp [hh])
    have ht : '/' ∉ t := fun hh => h (List.mem_cons_of_mem a hh)
    simp [List.takeWhile_cons, ha, ih ht]

theorem mem_charTrim {c : Char} {l : List Char} (h : c ∈ charTrim l) : c ∈ l := by
  unfold charTrim at h
  have h1 : List.rdropWhile isJsWs (l.dropWhile isJsWs) <+: l.dropWhile isJsWs :=
    List.rdropWhile_prefix _ _
  exact (List.dropWhile_sublist isJsWs).subset (h1.sublist.subset h)

theorem slash_not_mem_map_toLower {l : List Char} (h : '/' ∉ l) :
    '/' ∉ l.map Char.toLower := by
  intro hm
  obtain ⟨c, hc, he⟩ := List.mem_map.mp hm
  exact h ((toLower_eq_slash he) ▸ hc)

theorem map_toLower_idem (l : List Char) :
    (l.map Char.toLower).map Char.toLower = l.map Char.toLower := by
  rw [List.map_map]
  apply List.map_congr_left
  intro a _
  exact toLower_idem a

theorem head?_dropWhile_not_ws {l : List Char} {c : Char}
    (h : (l.dropWhile isJsWs).head? = some c) : isJsWs c = false := by
  induction l with
  | nil => simp [List.dropWhile] at h
  | cons a t ih =>
    rw [List.dropWhile_cons] at h
    by_cases ha : isJsWs a = true
    · rw [if_pos ha] at h
      exact ih h
    · rw [if_neg ha] at h
      simp only [List.head?_cons, Option.some.injEq] at h
      rw [← h]
      exact Bool.not_eq_true _ |>.mp ha

theorem head?_charTrim_not_ws {l : List Char} {c : Char}
    (h : (charTrim l).head? = some c) : isJsWs c = false := by
  unfold charTrim at h
  obtain ⟨r, hr⟩ := List.rdropWhile_prefix isJsWs (l.dropWhile isJsWs)
  have hh : (l.dropWhile isJsWs).head? = some c := by
    rw [← hr, List.head?_append, h]
    rfl
  exact head?_dropWhile_not_ws hh

theorem getLast?_charTrim_not_ws {l : List Char} {c : Char}
    (h : (charTrim l).getLast? = some c) : isJsWs c = false := by
  unfold charTrim at h
  have hne : List.rdropWhile isJsWs (l.dropWhile isJsWs) ≠ [] := by
    intro he
    rw [he] at h
    simp at h
  have hlast := List.rdropWhile_last_not isJsWs (l.dropWhile isJsWs) hne
  rw [List.getLast?_eq_getLast _ hne] at h
  simp only [Option.some.injEq] at h
  rw [← h]
  exact Bool.not_eq_true _ |>.mp hlast

theorem charTrim_eq_self {l : List Char}
    (h1 : ∀ c, l.head? = some c → isJsWs c = false)
    (h2 : ∀ c, l.getLast? = some c → isJsWs c = false) :
    charTrim l = l := by
  unfold charTrim
  have hd : l.dropWhile isJsWs = l := by
    cases l with
    | nil => rfl
    | cons a t =>
      rw [List.dropWhile_cons, if_neg]
      rw [h1 a rfl]
      simp
  rw [hd]
  rw [List.rdropWhile_eq_self_iff]
  intro hl
  rw [h2 _ (List.getLast?_eq_getLast l hl)]
  simp

theorem shopSuffix_ne_nil : shopSuffix ≠ [] := by decide

theorem slash_not_mem_shopSuffix : '/' ∉ shopSuffix := by decide

theorem map_toLower_shopSuffix : shopSuffix.map Char.toLower = shopSuffix := by decide

/-- Key algebraic fact behind the amended idempotence claim: for an input
with no slash, the JWT-variant resolver is idempotent. -/
theorem normalizeShopL_idem {x : List Char} (h : '/' ∉ x) :
    normalizeShopL (normalizeShopL x) = normalizeShopL x := by
  by_cases hx : x = []
  · subst hx
    rfl
  · set s : List Char := (charTrim x).map Char.toLower with hs
    have hslash : '/' ∉ s := slash_not_mem_map_toLower (fun hm => h (mem_charTrim hm))
    have hhead : ∀ c, s.head? = some c → isJsWs c = false := by
      intro c hc
      rw [hs, List.head?_map] at hc
      cases hh : (charTrim x).head? with
      | none => rw [hh] at hc; simp at hc
      | some c0 =>
        rw [hh] at hc
        simp only [Option.map_some', Option.some.injEq] at hc
        rw [← hc]
        exact isJsWs_toLower (head?_charTrim_not_ws hh)
    have hlast : ∀ c, s.getLast? = some c → isJsWs c = false := by
      intro c hc
      rw [hs, List.getLast?_map] at hc
      cases hh : (charTrim x).getLast? with
      | none => rw [hh] at hc; simp at hc
      | some c0 =>
        rw [hh] at hc
        simp only [Option.map_some', Option.some.injEq] at hc
        rw [← hc]
        exact isJsWs_toLower (getLast?_charTrim_not_ws hh)
    have hmap : s.map Char.toLower = s := by rw [hs]; exact map_toLower_idem _
    by_cases hcs : containsSeg shopSuffix s = true
    · have hy : normalizeShopL x = s := by
        rw [normalizeShopL, if_neg hx, if_pos hcs]
        exact takeWhile_ne_slash_eq_self hslash
      rw [hy]
      have hsne : s ≠ [] := containsSeg_ne_nil shopSuffix_ne_nil hcs
      have htrim : charTrim s = s := charTrim_eq_self hhead hlast
      rw [normalizeShopL, if_neg hsne, htrim, hmap, if_pos hcs]
      exact takeWhile_ne_slash_eq_self hslash
    · have hy : normalizeShopL x = s ++ shopSuffix := by
        rw [normalizeShopL, if_neg hx, if_neg hcs]
      rw [hy]
      have hne2 : s ++ shopSuffix ≠ [] := by
        intro he
        exact shopSuffix_ne_nil (List.append_eq_nil.mp he).2
      have htrim2 : charTrim (s ++ shopSuffix) = s ++ shopSuffix := by
        apply charTrim_eq_self
        · intro c hc
          rw [List.head?_append] at hc
          cases hsh : s.head? with
          | some c0 =>
            rw [hsh] at hc
            simp only [Option.or_some, Option.some.injEq] at hc
            exact hc ▸ hhead c0 hsh
          | none =>
            rw [hsh] at hc
            simp only [Option.none_or] at hc
            have : shopSuffix.head? = some '.' := by decide
            rw [this] at hc
            simp only [Option.some.injEq] at hc
            rw [← hc]
            decide
        · intro c hc
          rw [List.getLast?_append] at hc
          have : shopSuffix.getLast? = some 'm' := by decide
          rw [this] at hc
          simp only [Option.or_some, Option.some.injEq] at hc
          rw [← hc]
          decide
      have hmap2 : (s ++ shopSuffix).map Char.toLower = s ++ shopSuffix := by
        rw [List.map_append, hmap, map_toLower_shopSuffix]
      rw [normalizeShopL, if_neg hne2, htrim2, hmap2,
        if_pos (containsSeg_append_self s shopSuffix)]
      apply takeWhile_ne_slash_eq_self
      intro hm
      rcases List.mem_append.mp hm with h1 | h2
      · exact hslash h1
      · exact slash_not_mem_shopSuffix h2

/-! ### Claims -/

/-- C1: after getToken acquires a token with expires_in = 3600 at time t0,
the recorded state holds the token with expiry t0 + 3600s; every call
before t0 + 3540s returns the cached token with no upstream acquisition,
and every call at or after t0 + 3540s (inside the 60 second margin)
performs a fresh acquisition. -/
theorem C1_cc_cache_margin (t0 now : Int) (tok : String) (htok : tok ≠ "")
    (f : FetchResult) :
    (getToken { cachedToken := none, tokenExpiresAt := 0 } t0 (.ok tok 3600)).state =
      { cachedToken := some tok, tokenExpiresAt := t0 + 3600 * 1000 } ∧
    (now < t0 + 3540 * 1000 →
      getToken { cachedToken := some tok, tokenExpiresAt := t0 + 3600 * 1000 } now f =
        { result := .ok tok,
          state := { cachedToken := some tok, tokenExpiresAt := t0 + 3600 * 1000 },
          fetched := false }) ∧
    (t0 + 3540 * 1000 ≤ now →
      (getToken { cachedToken := some tok, tokenExpiresAt := t0 + 3600 * 1000 }
        now f).fetched = true) := by
  refine ⟨?_, ?_, ?_⟩
  · unfold getToken
    rw [if_neg (fun hcf => absurd hcf.1 (by simp [jsTruthy]))]
  · intro hlt
    have hcf : ccCacheFresh { cachedToken := some tok, tokenExpiresAt := t0 + 3600 * 1000 } now := by
      constructor
      · simp [jsTruthy, htok]
      · exact (by omega : now < t0 + 3600 * 1000 - 60000)
    unfold getToken
    rw [if_pos hcf]
    rfl
  · intro hge
    unfold getToken
    rw [if_neg]
    · cases f <;> rfl
    · intro hcf
      have h2 : now < t0 + 3600 * 1000 - 60000 := hcf.2
      omega

/-- C1 witness: with a token cached at t0 = 0 and expires_in 3600, the call
at 3000s returns it from the cache, and the call at 3541s fetches. -/
theorem C1_cc_cache_margin_witness :
    getToken { cachedToken := some "tokA", tokenExpiresAt := 3600000 } 3000000 (.thrown "down") =
      { result := .ok "tokA",
        state := { cachedToken := some "tokA", tokenExpiresAt := 3600000 },
        fetched := false } ∧
    (getToken { cachedToken := some "tokA", tokenExpiresAt := 3600000 } 3541000
      (.thrown "down")).fetched = true := by
  constructor
  · exact (C1_cc_cache_margin 0 3000000 "tokA" (by decide) (.thrown "down")).2.1 (by decide)
  · exact (C1_cc_cache_margin 0 3541000 "tokA" (by decide) (.thrown "down")).2.2 (by decide)

/-- C2: when an upstream acquisition is attempted (cache not fresh) and the
attempt fails, both getToken and getAccessToken propagate an error and
leave the cache state exactly as it was. -/
theorem C2_failure_preserves_cache (st : CCState) (st2 : CCState2) (now : Int)
    (f : FetchResult) (f2 : FetchResultCC)
    (hmiss : ¬ ccCacheFresh st now) (hfail : fetchFailed f = true)
    (hmiss2 : ¬ ccCacheFresh2 st2 now) (hfail2 : fetchFailedCC f2 = true) :
    (isError (getToken st now f).result = true ∧ (getToken st now f).state = st) ∧
    (isError (getAccessToken "" st2 now f2).result = true ∧
      (getAccessToken "" st2 now f2).state = st2) := by
  constructor
  · unfold getToken
    rw [if_neg hmiss]
    cases f with
    | thrown m => exact ⟨rfl, rfl⟩
    | notOk s t => exact ⟨rfl, rfl⟩
    | ok a e => simp [fetchFailed] at hfail
  · unfold getAccessToken
    rw [if_neg (by simp), if_neg hmiss2]
    cases f2 with
    | thrown m => exact ⟨rfl, rfl⟩
    | notOk s t => exact ⟨rfl, rfl⟩
    | ok a e => simp [fetchFailedCC] at hfail2

/-- C2 witness: a thrown fetch on an empty cache and a non-ok response on a
stale cache both error out and leave the respective states unchanged. -/
theorem C2_failure_preserves_cache_witness :
    isError (getToken { cachedToken := none, tokenExpiresAt := 0 } 1000000
      (.thrown "boom")).result = true ∧
    (getToken { cachedToken := none, tokenExpiresAt := 0 } 1000000
      (.thrown "boom")).state = { cachedToken := none, tokenExpiresAt := 0 } ∧
    isError (getAccessToken "" { ccToken := some "old", ccExpiresAt := 500000 } 1000000
      (.notOk 400 "bad request")).result = true ∧
    (getAccessToken "" { ccToken := some "old", ccExpiresAt := 500000 } 1000000
      (.notOk 400 "bad request")).state = { ccToken := some "old", ccExpiresAt := 500000 } := by
  have h := C2_failure_preserves_cache ⟨none, 0⟩ ⟨some "old", 500000⟩ 1000000
    (.thrown "boom") (.notOk 400 "bad request") (by decide) rfl (by decide) rfl
  exact ⟨h.1.1, h.1.2, h.2.1, h.2.2⟩

/-- C3 counterexample: the claim says every request to the check endpoint is
answered 200 with an isDraft body, but a request with no orderId query
parameter is answered 400 with an error body. -/
theorem C3_check_counterexample :
    checkDraftOrderHandler none (.ok none) =
      { status := 400, body := .errorBody "orderId is required" } ∧
    (checkDraftOrderHandler none (.ok none)).status ≠ 200 :=
  ⟨rfl, by decide⟩

/-- C3 amended: for every request whose orderId parameter is present and
non-empty, the check handler answers 200 with an isDraft boolean body, and
a thrown upstream call yields 200 with isDraft false; only a missing or
empty orderId is answered 400. -/
theorem C3_check_amended (orderId : String) (h : orderId ≠ "")
    (upstream : CheckUpstream) :
    (checkDraftOrderHandler (some orderId) upstream).status = 200 ∧
    isDraftBody (checkDraftOrderHandler (some orderId) upstream).body = true ∧
    (∀ msg, checkDraftOrderHandler (some orderId) (.thrown msg) =
      { status := 200, body := .isDraftVal false }) := by
  have hparse : ∃ d, parseDraftId (some orderId) = some d := by
    simp only [parseDraftId]
    rw [if_neg h]
    by_cases hg : jsStartsWith orderId "gid://" = true
    · rw [if_pos hg]
      exact ⟨_, rfl⟩
    · rw [if_neg hg]
      exact ⟨_, rfl⟩
  obtain ⟨d, hd⟩ := hparse
  refine ⟨?_, ?_, ?_⟩
  · unfold checkDraftOrderHandler
    rw [hd]
    cases upstream with
    | thrown m => rfl
    | ok dro => rfl
  · unfold checkDraftOrderHandler
    rw [hd]
    cases upstream with
    | thrown m => rfl
    | ok dro => rfl
  · intro msg
    unfold checkDraftOrderHandler
    rw [hd]

/-- C3 witness: a completed order probes as 200, and a network failure
still yields 200 with isDraft false. -/
theorem C3_check_amended_witness :
    (checkDraftOrderHandler (some "123") (.ok (some "COMPLETED"))).status = 200 ∧
    checkDraftOrderHandler (some "123") (.thrown "network down") =
      { status := 200, body := .isDraftVal false } :=
  ⟨(C3_check_amended "123" (by decide) (.ok (some "COMPLETED"))).1,
   (C3_check_amended "123" (by decide) (.ok (some "COMPLETED"))).2.2 "network down"⟩

/-- C4: a well-formed Bearer request whose token fails signature
verification (as every token signed with a wrong secret does) is rejected
401 invalid_token by sessionTokenAuth, which is a different response from
shop_mismatch, and the request is never authorized: verification runs
before the shop comparison and the sequence short-circuits. -/
theorem C4_wrong_secret_invalid_token (shopDomain a e : String)
    (hbearer : jsStartsWith a "Bearer " = true)
    (tokenResult : Except String String) :
    sessionTokenAuth shopDomain (some a) (.error e) tokenResult =
      .respond 401 "invalid_token" ∧
    (.respond 401 "invalid_token" : AuthOutcome) ≠ .respond 401 "shop_mismatch" ∧
    ∀ s t, sessionTokenAuth shopDomain (some a) (.error e) tokenResult ≠
      .authorized s t := by
  have hmain : sessionTokenAuth shopDomain (some a) (.error e) tokenResult =
      .respond 401 "invalid_token" := by
    unfold sessionTokenAuth
    rw [if_neg]
    simp [authMissingCheck, hbearer]
  refine ⟨hmain, by decide, ?_⟩
  intro s t hc
  rw [hmain] at hc
  exact AuthOutcome.noConfusion hc

/-- C4 witness: a concrete Bearer request with a failing verification is
rejected invalid_token even though the token acquisition would succeed. -/
theorem C4_wrong_secret_invalid_token_witness :
    sessionTokenAuth "demo.myshopify.com" (some "Bearer eyJ.bad.sig")
      (.error "signature verification failed") (.ok "tok") =
      .respond 401 "invalid_token" :=
  (C4_wrong_secret_invalid_token "demo.myshopify.com" "Bearer eyJ.bad.sig"
    "signature verification failed" (by decide) (.ok "tok")).1

/-- C5 counterexample: under the requireShopToken strategy a request with
no Authorization header at all is authorized (when a token is obtained)
instead of being rejected 401 missing_auth. -/
theorem C5_missing_auth_counterexample :
    requireShopToken "demo.myshopify.com" none (.ok "tokA") =
      .authorized "demo.myshopify.com" "tokA" ∧
    requireShopToken "demo.myshopify.com" none (.ok "tokA") ≠
      .respond 401 "missing_auth" :=
  ⟨rfl, by decide⟩

/-- C5 amended: under the sessionTokenAuth strategy a missing or non-Bearer
Authorization header is rejected 401 missing_auth independently of the
verification and token-acquisition outcomes (so before any upstream call),
while the requireShopToken strategy ignores the Authorization header
entirely. -/
theorem C5_missing_auth_amended (shopDomain : String) (authHeader : Option String)
    (hmiss : authMissingCheck authHeader = true) :
    (∀ vr tr, sessionTokenAuth shopDomain authHeader vr tr =
      .respond 401 "missing_auth") ∧
    (∀ a1 a2 tr, requireShopToken shopDomain a1 tr = requireShopToken shopDomain a2 tr) := by
  constructor
  · intro vr tr
    unfold sessionTokenAuth
    rw [if_pos hmiss]
  · intro a1 a2 tr
    rfl

/-- C5 witness: both an absent header and a non-Bearer header are rejected
missing_auth by sessionTokenAuth at concrete inputs. -/
theorem C5_missing_auth_amended_witness :
    sessionTokenAuth "demo.myshopify.com" none
      (.ok { dest := some "demo.myshopify.com", des := none }) (.ok "tok") =
      .respond 401 "missing_auth" ∧
    sessionTokenAuth "demo.myshopify.com" (some "Token abc")
      (.ok { dest := some "demo.myshopify.com", des := none }) (.ok "tok") =
      .respond 401 "missing_auth" :=
  ⟨(C5_missing_auth_amended "demo.myshopify.com" none (by decide)).1 _ _,
   (C5_missing_auth_amended "demo.myshopify.com" (some "Token abc") (by decide)).1 _ _⟩

/-- C6: the startup logging of the static-token variant prints the access
token unmasked, both in the module-load console.log and in the listen
callback token test, although the same file masks the token elsewhere:
the unmasked token value is a member of the log output. -/
theorem C6_unmasked_token_logged :
    ("STATIC_ACCESS_TOKEN " ++ "shpat_0123456789abcdef") ∈
      startupEnvLogs "shpat_0123456789abcdef" "client-id" "client-secret" ∧
    ("Token OK: " ++ "shpat_0123456789abcdef") ∈
      listenLogs 3000 "demo.myshopify.com" "shpat_0123456789abcdef"
        (.ok "shpat_0123456789abcdef") ∧
    strContains ("Token OK: " ++ "shpat_0123456789abcdef")
      "shpat_0123456789abcdef" = true ∧
    maskToken "shpat_0123456789abcdef" ≠ "shpat_0123456789abcdef" := by
  refine ⟨by decide, by decide, by decide, by decide⟩

/-- C7 counterexample: with the shop identifier and all auth credentials
missing together, startup exits after the first check: the message names
SHOPIFY_SHOP but none of the auth variables, so not every missing variable
is named at once. -/
theorem C7_startup_counterexample :
    loadEnvStartup { SHOPIFY_SHOP := none, SHOP := none, SHOPIFY_ACCESS_TOKEN := none,
                     SHOPIFY_CLIENT_ID := none, SHOPIFY_API_KEY := none,
                     SHOPIFY_CLIENT_SECRET := none, SHOPIFY_API_SECRET := none } =
      .exited 1 missingShopMessage ∧
    strContains missingShopMessage "SHOPIFY_SHOP" = true ∧
    strContains missingShopMessage "SHOPIFY_ACCESS_TOKEN" = false ∧
    strContains missingShopMessage "SHOPIFY_CLIENT_ID" = false ∧
    strContains missingShopMessage "SHOPIFY_CLIENT_SECRET" = false := by
  refine ⟨rfl, by decide, by decide, by decide, by decide⟩

/-- C7 amended: startup refuses to start with exit code 1 and a descriptive
message whenever required configuration is absent, but the checks are
sequential: a missing shop is reported alone, and only when the shop is
present is a fully missing auth configuration reported, with that message
naming both credential options together. -/
theorem C7_startup_amended (e : EnvConfig) :
    (jsTruthy (envShop e) = false → loadEnvStartup e = .exited 1 missingShopMessage) ∧
    (jsTruthy (envShop e) = true → hasStaticToken e = false → hasClientCreds e = false →
      loadEnvStartup e = .exited 1 missingAuthMessage ∧
      strContains missingAuthMessage "SHOPIFY_ACCESS_TOKEN" = true ∧
      strContains missingAuthMessage "SHOPIFY_CLIENT_ID" = true ∧
      strContains missingAuthMessage "SHOPIFY_CLIENT_SECRET" = true) := by
  constructor
  · intro h
    unfold loadEnvStartup
    rw [if_pos h]
  · intro h1 h2 h3
    refine ⟨?_, by decide, by decide, by decide⟩
    unfold loadEnvStartup
    rw [if_neg (by simp [h1]), if_pos ⟨h2, h3⟩]

/-- C7 witness: a missing shop exits with the shop message, and a present
shop with no credentials exits with the auth message. -/
theorem C7_startup_amended_witness :
    loadEnvStartup { SHOPIFY_SHOP := none, SHOP := none,
                     SHOPIFY_ACCESS_TOKEN := some "shpat_x",
                     SHOPIFY_CLIENT_ID := none, SHOPIFY_API_KEY := none,
                     SHOPIFY_CLIENT_SECRET := none, SHOPIFY_API_SECRET := none } =
      .exited 1 missingShopMessage ∧
    loadEnvStartup { SHOPIFY_SHOP := some "demo", SHOP := none,
                     SHOPIFY_ACCESS_TOKEN := none,
                     SHOPIFY_CLIENT_ID := none, SHOPIFY_API_KEY := none,
                     SHOPIFY_CLIENT_SECRET := none, SHOPIFY_API_SECRET := none } =
      .exited 1 missingAuthMessage :=
  ⟨(C7_startup_amended _).1 (by decide),
   ((C7_startup_amended _).2 (by decide) (by decide) (by decide)).1⟩

/-- C8 counterexample: the static-token variant resolver does not keep only
the host segment before the first slash: an admin path after the canonical
suffix is kept whole. -/
theorem C8_normalize_counterexample :
    normalizeShopStatic "foo.myshopify.com/admin" = "foo.myshopify.com/admin" ∧
    normalizeShopStatic "foo.myshopify.com/admin" ≠ "foo.myshopify.com" := by
  refine ⟨by decide, by decide⟩

/-- C8 amended: the JWT-variant resolver satisfies all three stated
equations; the static-token variant satisfies the bare-name and empty
cases but returns "foo.myshopify.com/admin" unchanged, as it only strips
one trailing slash. -/
theorem C8_normalize_amended :
    normalizeShop "foo" = "foo.myshopify.com" ∧
    normalizeShop "foo.myshopify.com/admin" = "foo.myshopify.com" ∧
    normalizeShop "" = "" ∧
    normalizeShopStatic "foo" = "foo.myshopify.com" ∧
    normalizeShopStatic "" = "" ∧
    normalizeShopStatic "foo.myshopify.com/admin" = "foo.myshopify.com/admin" := by
  refine ⟨by decide, by decide, by decide, by decide, by decide, by decide⟩

/-- C9 counterexample: the JWT-variant resolver is not idempotent on all
string inputs: a slash before the canonical suffix makes the first pass
keep a bare host that the second pass extends. -/
theorem C9_idem_counterexample :
    normalizeShop (normalizeShop "foo/bar.myshopify.com") ≠
      normalizeShop "foo/bar.myshopify.com" ∧
    normalizeShop "foo/bar.myshopify.com" = "foo" ∧
    normalizeShop (normalizeShop "foo/bar.myshopify.com") = "foo.myshopify.com" := by
  refine ⟨by decide, by decide, by decide⟩

/-- C9 amended: the resolver is idempotent on every string input that
contains no slash character. -/
theorem C9_idem_amended (x : String) (h : '/' ∉ x.data) :
    normalizeShop (normalizeShop x) = normalizeShop x :=
  congrArg String.mk (normalizeShopL_idem h)

/-- C9 witness: idempotence at a concrete slash-free shop name. -/
theorem C9_idem_amended_witness :
    normalizeShop (normalizeShop "b2b-store") = normalizeShop "b2b-store" :=
  C9_idem_amended "b2b-store" (by decide)

/-- C10: with a non-empty static access token configured, getAccessToken
returns it, attempts no upstream request, and leaves the
client-credentials cache fields unchanged, whatever cached state exists. -/
theorem C10_static_token_frame (staticTok : String) (h : staticTok ≠ "")
    (st : CCState2) (now : Int) (f : FetchResultCC) :
    getAccessToken staticTok st now f =
      { result := .ok staticTok, state := st, fetched := false } := by
  unfold getAccessToken
  rw [if_pos h]

/-- C10 witness: the static token wins even over a live cached
client-credentials token and a successful would-be fetch. -/
theorem C10_static_token_frame_witness :
    getAccessToken "shpat_static" { ccToken := some "ccOld", ccExpiresAt := 999999999 } 5
      (.ok "ccNew" (some 3600)) =
      { result := .ok "shpat_static",
        state := { ccToken := some "ccOld", ccExpiresAt := 999999999 },
        fetched := false } :=
  C10_static_token_frame "shpat_static" (by decide) _ 5 _

end B2B
